import Mathlib

/-!
Verification development for the ACP (Agent Client Protocol) subsystem of the
Nexus repository (ralph-orchestrator). The definitions below are shallow
embeddings of:
  - src/ralph_orchestrator/adapters/acp_protocol.py  (JSON-RPC codec)
  - src/ralph_orchestrator/adapters/acp_models.py    (session state, payloads)
  - src/ralph_orchestrator/adapters/acp.py           (adapter: notification
    normalization, initialize handshake, prompt execution)
JSON values decoded by json.loads are modelled by the inductive JVal; Python
dicts are association lists with unique keys (lookups take the first match,
which coincides with dict semantics on well-formed inputs). Python None is
JVal.null. A Python exception escaping a modelled function is represented by
an Option/Except result being none, as noted at each definition.
-/

/-- JSON values as produced by json.loads: null, booleans, integers, strings,
arrays and objects. Python None is represented by null. -/
inductive JVal where
  | null : JVal
  | bool (b : Bool) : JVal
  | num (n : Int) : JVal
  | str (s : String) : JVal
  | arr (elems : List JVal) : JVal
  | obj (fields : List (String × JVal)) : JVal

/-- A Python dict with string keys, as an association list. -/
abbrev Dict := List (String × JVal)

/-- Lookup of a key in a dict; mirrors Python membership and subscript
(first matching key). -/
def dictGet? : Dict → String → Option JVal
  | [], _ => none
  | (k, v) :: rest, key => if k = key then some v else dictGet? rest key

/-- Python dict.get with a default value. -/
def dictGetD (d : Dict) (key : String) (dflt : JVal) : JVal :=
  (dictGet? d key).getD dflt

/-- Python dict item assignment: replace the value of an existing key,
otherwise append the new pair. -/
def dictSet : Dict → String → JVal → Dict
  | [], key, v => [(key, v)]
  | (k, w) :: rest, key, v =>
      if k = key then (k, v) :: rest else (k, w) :: dictSet rest key v

/-- Python truthiness of a JSON value: None, False, 0, the empty string, the
empty list and the empty dict are falsy. -/
def JVal.truthy : JVal → Bool
  | .null => false
  | .bool b => b
  | .num n => n != 0
  | .str s => s != ""
  | .arr l => !l.isEmpty
  | .obj l => !l.isEmpty

/-- The Python `or` operator on two values: the first if truthy, else the
second. -/
def pyOr2 (a b : JVal) : JVal := if a.truthy then a else b

/-- Whether a JSON value is the given string (Python == against a string
literal). -/
def jvalIsStr : JVal → String → Bool
  | .str t, s => t == s
  | _, _ => false

/-- Whether a value is Python None. -/
def JVal.isNull : JVal → Bool
  | .null => true
  | _ => false

/-!
Embedding of ACPProtocol (acp_protocol.py). The codec state is the integer
counter self.request_id, starting at 0. Wire strings are modelled at the
decoded-JSON level: create_request builds the message dict that json.dumps
serializes, and parse_message receives the result of json.loads, which is
either a decode failure (Except.error with the exception text) or a JVal.
-/

/-- ACPProtocol.create_request: increments the id counter and builds the
request message. Returns (new counter state, request id, message dict). -/
def createRequest (st : Nat) (method : String) (params : JVal) :
    Nat × Nat × Dict :=
  let rid := st + 1
  (rid, rid,
    [("jsonrpc", JVal.str "2.0"), ("id", JVal.num (rid : Int)),
     ("method", JVal.str method), ("params", params)])

/-- The ids returned by a sequence of create_request calls starting from the
given counter state, one per (method, params) pair. -/
def issuedIds (st : Nat) : List (String × JVal) → List Nat
  | [] => []
  | (m, p) :: rest =>
      let r := createRequest st m p
      r.2.1 :: issuedIds r.1 rest

/-- Classification result of ACPProtocol.parse_message: the MessageType tag
together with the fields the code extracts for it. -/
inductive ParsedMessage where
  | parseError (desc : String) : ParsedMessage
  | invalid : ParsedMessage
  | error (id err : JVal) : ParsedMessage
  | response (id result : JVal) : ParsedMessage
  | request (id method params : JVal) : ParsedMessage
  | notification (method params : JVal) : ParsedMessage

/-- The if/elif classification chain of parse_message over the presence of
the id, error, result and method keys: (error and id) gives ERROR, then
(result and id) gives RESPONSE, then (method and id) gives REQUEST, then
(method without id) gives NOTIFICATION, else INVALID. -/
def classifyFields (message : Dict) : ParsedMessage :=
  match dictGet? message "id", dictGet? message "error",
        dictGet? message "result", dictGet? message "method" with
  | some i, some e, _, _ => .error i e
  | some i, none, some r, _ => .response i r
  | some i, none, none, some m =>
      .request i m (dictGetD message "params" (JVal.obj []))
  | none, _, _, some m =>
      .notification m (dictGetD message "params" (JVal.obj []))
  | _, _, _, _ => .invalid

/-- ACPProtocol.parse_message. Input: the outcome of json.loads, either a
decode error carrying the exception text or the decoded value. Output none
models parse_message itself raising: message.get is called on the decoded
value, which raises AttributeError when the value is not a dict. -/
def parseMessage : Except String JVal → Option ParsedMessage
  | .error e => some (.parseError ("JSON parse error: " ++ e))
  | .ok (.obj message) =>
      if jvalIsStr (dictGetD message "jsonrpc" JVal.null) "2.0" then
        some (classifyFields message)
      else
        some .invalid
  | .ok _ => none

/-!
Embedding of the session state (acp_models.py). The dataclass field
annotations give the types: ToolCall has string id and name, a dict of
arguments, a string status, optional result and optional error; UpdatePayload
carries optional fields per kind. The payload content, names, ids, statuses
and errors are declared Optional(str) on the dataclasses, which is the domain
process_update is written for, so those fields are Option String here; the
result field is declared Optional(Any) and is Option JVal.
-/

/-- The ToolCall dataclass. -/
structure ToolCall where
  tool_call_id : String
  tool_name : String
  arguments : Dict
  status : String := "pending"
  result : Option JVal := none
  error : Option String := none

/-- The UpdatePayload dataclass with its declared field types. -/
structure UpdatePayload where
  kind : String
  content : Option String := none
  tool_name : Option String := none
  tool_call_id : Option String := none
  arguments : Option Dict := none
  status : Option String := none
  result : Option JVal := none
  error : Option String := none

/-- The ACPSession dataclass: accumulated output and thoughts plus the list
of tracked tool calls. -/
structure ACPSession where
  session_id : String
  output : String := ""
  thoughts : String := ""
  tool_calls : List ToolCall := []

/-- Python truthiness of an Optional(str) value: None and the empty string
are falsy. -/
def optStrTruthy : Option String → Bool
  | some s => s != ""
  | none => false

/-- The Python expression (x or "") on an Optional(str): the empty string
when x is falsy, else x. -/
def pyOrEmptyStr : Option String → String
  | some s => if s = "" then "" else s
  | none => ""

/-- The Python expression (x or emptydict) on an Optional(dict). -/
def pyOrEmptyDict : Option Dict → Dict
  | some d => if d.isEmpty then [] else d
  | none => []

/-- The mutation lines of the tool_call_update branch of
ACPSession.process_update: a truthy status overwrites, a non-None result
overwrites, a truthy error overwrites; all other fields are untouched. -/
def applyToolCallUpdate (p : UpdatePayload) (tc : ToolCall) : ToolCall :=
  let tc1 := match p.status with
    | some st => if st = "" then tc else { tc with status := st }
    | none => tc
  let tc2 := match p.result with
    | some r => { tc1 with result := some r }
    | none => tc1
  match p.error with
    | some e => if e = "" then tc2 else { tc2 with error := some e }
    | none => tc2

/-- In-place mutation of the first list element with the given tool_call_id;
mirrors ACPSession.get_tool_call (first match) followed by field assignment
on the found object. The list is unchanged when no element matches. -/
def updateFirstToolCall (tid : String) (f : ToolCall → ToolCall) :
    List ToolCall → List ToolCall
  | [] => []
  | tc :: rest =>
      if tc.tool_call_id = tid then f tc :: rest
      else tc :: updateFirstToolCall tid f rest

/-- The new ToolCall built by the tool_call branch of process_update, with
falsy fields replaced by the empty string / empty dict. -/
def ACPSession.newToolCallOf (p : UpdatePayload) : ToolCall :=
  { tool_call_id := pyOrEmptyStr p.tool_call_id,
    tool_name := pyOrEmptyStr p.tool_name,
    arguments := pyOrEmptyDict p.arguments }

/-- ACPSession.process_update: routes a payload by kind. Message and thought
chunks append truthy content; tool_call appends a new record; a
tool_call_update with a truthy id mutates the first matching record via
applyToolCallUpdate; every other kind (including plan) leaves the session
unchanged. -/
def ACPSession.process_update (s : ACPSession) (p : UpdatePayload) :
    ACPSession :=
  if p.kind = "agent_message_chunk" then
    if optStrTruthy p.content then
      { s with output := s.output ++ p.content.getD "" }
    else s
  else if p.kind = "agent_thought_chunk" then
    if optStrTruthy p.content then
      { s with thoughts := s.thoughts ++ p.content.getD "" }
    else s
  else if p.kind = "tool_call" then
    { s with tool_calls := s.tool_calls ++ [ACPSession.newToolCallOf p] }
  else if p.kind = "tool_call_update" then
    if optStrTruthy p.tool_call_id then
      let tid := p.tool_call_id.getD ""
      let f := applyToolCallUpdate p
      { s with tool_calls := updateFirstToolCall tid f s.tool_calls }
    else s
  else s

/-- ACPSession.reset: clears output, thoughts and tool calls, preserving the
session id. -/
def ACPSession.reset (s : ACPSession) : ACPSession :=
  { s with output := "", thoughts := "", tool_calls := [] }

/-!
Embedding of the adapter notification normalization
(ACPAdapter.handle_notification and ACPAdapter.merge_tool_fields in acp.py)
together with UpdatePayload.from_dict (acp_models.py) at the wire level,
where every field is a raw JSON value.
-/

/-- The fixed class-level alias table TOOL_FIELD_ALIASES of ACPAdapter, in
dict insertion order. -/
def toolFieldAliases : List (String × List String) :=
  [("toolName", ["toolName", "tool_name", "name", "tool"]),
   ("toolCallId", ["toolCallId", "tool_call_id", "id"]),
   ("arguments", ["arguments", "args", "parameters", "params", "input"]),
   ("status", ["status"]),
   ("result", ["result"]),
   ("error", ["error"])]

/-- Whether a value is Python None or the empty string: the values that
merge_tool_fields refuses to write and treats as overwritable. -/
def isNoneOrEmpty : JVal → Bool
  | .null => true
  | .str s => s == ""
  | _ => false

/-- The special handling in merge_tool_fields when the alias key is tool and
the canonical field is toolName: a dict value is replaced by the or-chain of
its name, toolName and tool_name entries; a non-string non-dict value is
replaced by None. -/
def toolNameFromToolValue : JVal → JVal
  | .obj d =>
      pyOr2 (pyOr2 (dictGetD d "name" JVal.null) (dictGetD d "toolName" JVal.null))
        (dictGetD d "tool_name" JVal.null)
  | .str s => .str s
  | _ => .null

/-- The inner alias loop of merge_tool_fields: scan the alias keys in order
and return the first value present in the source that survives the tool
transform and is neither None nor the empty string. -/
def firstAliasValue (source : Dict) (canonical : String) :
    List String → Option JVal
  | [] => none
  | key :: rest =>
      match dictGet? source key with
      | none => firstAliasValue source canonical rest
      | some v0 =>
          let v := if key = "tool" ∧ canonical = "toolName" then
                     toolNameFromToolValue v0
                   else v0
          if isNoneOrEmpty v then firstAliasValue source canonical rest
          else some v

/-- One canonical field of the merge_tool_fields loop: when allowNameId is
false the bare name and id aliases are dropped for toolName and toolCallId;
a target value that is already present and neither None nor empty is kept
(first writer wins); otherwise the first usable alias value is written. -/
def mergeField (allowNameId : Bool) (source : Dict) (target : Dict)
    (entry : String × List String) : Dict :=
  let canonical := entry.1
  let aliases :=
    if !allowNameId ∧ (canonical = "toolName" ∨ canonical = "toolCallId") then
      entry.2.filter (fun a => a ≠ "name" ∧ a ≠ "id")
    else entry.2
  let skip := match dictGet? target canonical with
    | some v => !(isNoneOrEmpty v)
    | none => false
  if skip then target
  else
    match firstAliasValue source canonical aliases with
    | some v => dictSet target canonical v
    | none => target

/-- ACPAdapter.merge_tool_fields: fold the alias table over the target. -/
def mergeToolFields (allowNameId : Bool) (target source : Dict) : Dict :=
  List.foldl (mergeField allowNameId source) target toolFieldAliases

/-- The repeated sub-object probe of handle_notification: merge the toolCall
or tool_call sub-object of a container when it is a dict, then its tool
sub-object when it is a dict. -/
def mergeNestedFrom (allowNameId : Bool) (flat : Dict) (container : Dict) :
    Dict :=
  let ntc := pyOr2 (dictGetD container "toolCall" JVal.null)
    (dictGetD container "tool_call" JVal.null)
  let flat1 := match ntc with
    | .obj d => mergeToolFields allowNameId flat d
    | _ => flat
  match dictGetD container "tool" JVal.null with
    | .obj d => mergeToolFields allowNameId flat1 d
    | _ => flat1

/-- The str() conversion applied by handle_notification to a truthy scalar
content value. The list and dict cases are unreachable there: the converting
branch runs only when the content value is neither a dict nor a list. -/
def pyStrScalar : JVal → String
  | .null => "None"
  | .bool true => "True"
  | .bool false => "False"
  | .num n => toString n
  | .str s => s
  | .arr _ => ""
  | .obj _ => ""

/-- The nested-format branch of ACPAdapter.handle_notification: from the
update sub-dict of the notification params, build the flat params dict by
the documented deterministic merge order: the entries of a list content
(each entry, then its toolCall/tool_call, then its tool), then the update
dict itself, then a dict content and its sub-objects, then the toolCall or
tool_call and tool sub-objects of the update dict. -/
def handleNestedUpdate (update : Dict) : Dict :=
  let kind := dictGetD update "sessionUpdate" (JVal.str "")
  let contentObj := dictGetD update "content" JVal.null
  let allowNameId := jvalIsStr kind "tool_call" || jvalIsStr kind "tool_call_update"
  let flat0 : Dict := [("kind", kind), ("content", JVal.null)]
  let flat1 :=
    match contentObj with
    | .obj d =>
        if (dictGet? d "text").isSome then
          dictSet flat0 "content" (dictGetD d "text" (JVal.str ""))
        else flat0
    | .arr entries =>
        entries.foldl (fun flat e =>
          match e with
          | .obj ed =>
              mergeNestedFrom allowNameId
                (mergeToolFields allowNameId flat ed) ed
          | _ => flat) flat0
    | other =>
        dictSet flat0 "content"
          (.str (if other.truthy then pyStrScalar other else ""))
  let flat2 := mergeToolFields allowNameId flat1 update
  let flat3 :=
    match contentObj with
    | .obj d => mergeNestedFrom allowNameId (mergeToolFields allowNameId flat2 d) d
    | _ => flat2
  mergeNestedFrom allowNameId flat3 update

/-- UpdatePayload.from_dict at the wire level: the dataclass instance it
builds, with every field holding the raw JSON value taken from the dict
(null standing for Python None). -/
structure RawUpdatePayload where
  kind : JVal
  content : JVal := .null
  tool_name : JVal := .null
  tool_call_id : JVal := .null
  arguments : JVal := .null
  status : JVal := .null
  result : JVal := .null
  error : JVal := .null

/-- UpdatePayload.from_dict: reads the canonical camelCase keys, then for the
tool_call and tool_call_update kinds falls back to the snake_case and bare
aliases, and for tool_call falls back for the arguments. Returns none when
the kind key is absent (the subscript raises KeyError). -/
def updatePayloadFromDict (data : Dict) : Option RawUpdatePayload :=
  match dictGet? data "kind" with
  | none => none
  | some kind =>
      let toolName0 := dictGetD data "toolName" JVal.null
      let toolCallId0 := dictGetD data "toolCallId" JVal.null
      let arguments0 := dictGetD data "arguments" JVal.null
      let isToolKind := jvalIsStr kind "tool_call" || jvalIsStr kind "tool_call_update"
      let toolName1 :=
        if isToolKind && toolName0.isNull then
          let t := pyOr2 (dictGetD data "tool_name" JVal.null)
            (dictGetD data "name" JVal.null)
          if t.isNull then
            match dictGetD data "tool" JVal.null with
            | .str s => JVal.str s
            | _ => JVal.null
          else t
        else toolName0
      let toolCallId1 :=
        if isToolKind && toolCallId0.isNull then
          pyOr2 (dictGetD data "tool_call_id" JVal.null)
            (dictGetD data "id" JVal.null)
        else toolCallId0
      let arguments1 :=
        if jvalIsStr kind "tool_call" && arguments0.isNull then
          pyOr2 (pyOr2 (dictGetD data "args" JVal.null)
              (dictGetD data "parameters" JVal.null))
            (dictGetD data "params" JVal.null)
        else arguments0
      some { kind := kind,
             content := dictGetD data "content" JVal.null,
             tool_name := toolName1,
             tool_call_id := toolCallId1,
             arguments := arguments1,
             status := dictGetD data "status" JVal.null,
             result := dictGetD data "result" JVal.null,
             error := dictGetD data "error" JVal.null }

/-- The session/update params normalization of handle_notification: params
holding an update key follow the nested branch (none models the attribute
access raising when the update value is not a dict); otherwise the flat
params feed UpdatePayload.from_dict directly. -/
def normalizeNotification (params : Dict) : Option RawUpdatePayload :=
  match dictGet? params "update" with
  | some (.obj u) => updatePayloadFromDict (handleNestedUpdate u)
  | some _ => none
  | none => updatePayloadFromDict params

/-!
Embedding of the response handling of ACPAdapter.execute_prompt (acp.py).
The session/prompt request has already been sent and the streamed
notifications have already been folded into the session; the function below
is the code run on the awaited response dict.
-/

/-- The ToolResponse fields the prompt path fills: the success flag, the
accumulated output and the error value (metadata is not modelled). -/
structure ToolResponse where
  success : Bool
  output : String
  error : Option JVal := none

/-- The response handling of execute_prompt: a stopReason equal to the
string error yields a failure ToolResponse carrying the message of the error
object (default text when the message key is absent) and the session output;
any other stopReason yields a success ToolResponse with the session output.
The session argument is None when no session exists, in which case the
output is empty. The result is none when the code would raise: the error
value of the response is present but not a dict, so the message lookup
raises AttributeError. -/
def executePromptResponse (session : Option ACPSession) (response : Dict) :
    Option ToolResponse :=
  let out := match session with
    | some s => s.output
    | none => ""
  let stopReason := dictGetD response "stopReason" (JVal.str "unknown")
  if jvalIsStr stopReason "error" then
    match dictGetD response "error" (JVal.obj []) with
    | .obj d =>
        some { success := false, output := out,
               error := some (dictGetD d "message"
                 (JVal.str "Unknown error from agent")) }
    | _ => none
  else
    some { success := true, output := out, error := none }

/-!
Embedding of the control flow of ACPAdapter.initialize (acp.py). The
subprocess transport is abstract: the environment below records the outcome
of each awaited step (the transport start, the initialize request and the
session/new request), and the model reproduces the try/except structure of
the code on those outcomes: the client is created and started before the
try block, so a start failure propagates without a stop call; every failure
inside the try block (an exception, a timeout of asyncio.wait_for, a missing
protocolVersion, a falsy sessionId) stops the transport and re-raises; the
initialized flag is set only after the whole handshake succeeds.
-/

/-- Outcome of one awaited request during the handshake: a response dict, a
raised exception with its message, or an asyncio timeout. -/
inductive StepOutcome where
  | ok (response : Dict) : StepOutcome
  | exn (msg : String) : StepOutcome
  | timeout : StepOutcome

/-- The abstract environment of one initialize run: whether the transport
start raises, and the outcomes of the initialize and session/new requests. -/
structure InitEnv where
  startExn : Option String := none
  initStep : StepOutcome
  sessionStep : StepOutcome

/-- The observable result of one initialize run: whether stop was called on
the transport, the final initialized flag, and the returned value (ok) or
the propagated exception message (error). -/
structure InitResult where
  stopped : Bool
  initialized : Bool
  outcome : Except String Unit

/-- The control flow of ACPAdapter.initialize on an adapter that is not yet
initialized, as a function of the step outcomes. -/
def initializeRun (env : InitEnv) : InitResult :=
  match env.startExn with
  | some e => { stopped := false, initialized := false, outcome := .error e }
  | none =>
      match env.initStep with
      | .timeout =>
          { stopped := true, initialized := false,
            outcome := .error "Initialization timed out" }
      | .exn e =>
          { stopped := true, initialized := false, outcome := .error e }
      | .ok initResponse =>
          if (dictGet? initResponse "protocolVersion").isSome then
            match env.sessionStep with
            | .timeout =>
                { stopped := true, initialized := false,
                  outcome := .error "Initialization timed out" }
            | .exn e =>
                { stopped := true, initialized := false, outcome := .error e }
            | .ok sessionResponse =>
                if (dictGetD sessionResponse "sessionId" JVal.null).truthy then
                  { stopped := false, initialized := true, outcome := .ok () }
                else
                  { stopped := true, initialized := false,
                    outcome := .error
                      "Invalid session/new response: missing sessionId" }
          else
            { stopped := true, initialized := false,
              outcome := .error
                "Invalid initialize response: missing protocolVersion" }

/-!
Helper lemmas about the session-state operations.
-/

/-- applyToolCallUpdate never changes the id, the name or the arguments of a
tool call. -/
theorem applyToolCallUpdate_preserves (p : UpdatePayload) (tc : ToolCall) :
    (applyToolCallUpdate p tc).tool_call_id = tc.tool_call_id ∧
    (applyToolCallUpdate p tc).tool_name = tc.tool_name ∧
    (applyToolCallUpdate p tc).arguments = tc.arguments := by
  unfold applyToolCallUpdate
  cases p.status <;> cases p.result <;> cases p.error <;>
    simp <;> split_ifs <;> simp

/-- updateFirstToolCall preserves the list length. -/
theorem updateFirstToolCall_length (tid : String) (f : ToolCall → ToolCall)
    (l : List ToolCall) :
    (updateFirstToolCall tid f l).length = l.length := by
  induction l with
  | nil => rfl
  | cons tc rest ih =>
      unfold updateFirstToolCall
      split_ifs <;> simp [ih]

/-- updateFirstToolCall leaves the list unchanged when no element has the
given id. -/
theorem updateFirstToolCall_no_match (tid : String) (f : ToolCall → ToolCall)
    (l : List ToolCall) (h : ∀ tc ∈ l, tc.tool_call_id ≠ tid) :
    updateFirstToolCall tid f l = l := by
  induction l with
  | nil => rfl
  | cons tc rest ih =>
      unfold updateFirstToolCall
      rw [if_neg (h tc (by simp))]
      rw [ih (fun tc2 htc2 => h tc2 (by simp [htc2]))]

/-- Unfolding equation of updateFirstToolCall on a cons cell. -/
theorem updateFirstToolCall_cons (tid : String) (f : ToolCall → ToolCall)
    (tc : ToolCall) (rest : List ToolCall) :
    updateFirstToolCall tid f (tc :: rest)
      = if tc.tool_call_id = tid then f tc :: rest
        else tc :: updateFirstToolCall tid f rest := rfl

/-- Every element of the updated list is either an untouched element of the
original list or the image under f of an element whose id was the given id. -/
theorem updateFirstToolCall_mem (tid : String) (f : ToolCall → ToolCall)
    (l : List ToolCall) :
    ∀ tc2 ∈ updateFirstToolCall tid f l,
      tc2 ∈ l ∨ ∃ tc, tc ∈ l ∧ tc.tool_call_id = tid ∧ tc2 = f tc := by
  induction l with
  | nil => intro tc2 h; simp [updateFirstToolCall] at h
  | cons tc rest ih =>
      intro tc2 h
      rw [updateFirstToolCall_cons] at h
      by_cases hm : tc.tool_call_id = tid
      · rw [if_pos hm] at h
        rcases List.mem_cons.mp h with h | h
        · exact Or.inr ⟨tc, by simp, hm, h⟩
        · exact Or.inl (List.mem_cons_of_mem _ h)
      · rw [if_neg hm] at h
        rcases List.mem_cons.mp h with h | h
        · exact Or.inl (by simp [h])
        · rcases ih tc2 h with h2 | ⟨tc3, h3, h4, h5⟩
          · exact Or.inl (List.mem_cons_of_mem _ h2)
          · exact Or.inr ⟨tc3, List.mem_cons_of_mem _ h3, h4, h5⟩

/-- updateFirstToolCall preserves the list of ids when f preserves ids. -/
theorem updateFirstToolCall_map_id (tid : String) (f : ToolCall → ToolCall)
    (l : List ToolCall)
    (hf : ∀ tc, (f tc).tool_call_id = tc.tool_call_id) :
    (updateFirstToolCall tid f l).map ToolCall.tool_call_id
      = l.map ToolCall.tool_call_id := by
  induction l with
  | nil => rfl
  | cons tc rest ih =>
      rw [updateFirstToolCall_cons]
      split_ifs <;> simp [ih, hf]

/-- updateFirstToolCall applies f to the head of the matching suffix when no
earlier element matches. -/
theorem updateFirstToolCall_split (tid : String) (f : ToolCall → ToolCall)
    (pre post : List ToolCall) (tc : ToolCall)
    (hpre : ∀ tc2 ∈ pre, tc2.tool_call_id ≠ tid)
    (hm : tc.tool_call_id = tid) :
    updateFirstToolCall tid f (pre ++ tc :: post) = pre ++ f tc :: post := by
  induction pre with
  | nil =>
      simp [updateFirstToolCall_cons, hm]
  | cons q qs ih =>
      simp only [List.cons_append]
      rw [updateFirstToolCall_cons, if_neg (hpre q (by simp)),
        ih (fun tc2 htc2 => hpre tc2 (by simp [htc2]))]

/-- A general shift lemma for the id counter: starting from counter state st,
the returned ids are st+1, st+2, ... . -/
theorem issuedIds_shift (st : Nat) (calls : List (String × JVal)) :
    issuedIds st calls = List.range' (st + 1) calls.length := by
  induction calls generalizing st with
  | nil => rfl
  | cons c rest ih =>
      cases c with
      | mk m p => simp [issuedIds, createRequest, List.range', ih]

/-- C6: the request ids returned by N successive create_request calls on one
protocol instance (counter starting at 0) are exactly 1, 2, ..., N: they
start at 1, are strictly increasing with no gaps, and none is reused. -/
theorem create_request_ids_are_one_to_n (calls : List (String × JVal)) :
    issuedIds 0 calls = List.range' 1 calls.length :=
  issuedIds_shift 0 calls

/-- C7: round trip — the message built by create_request, fed back through
parse_message, classifies as REQUEST and recovers the identical method,
params and the id that create_request returned. -/
theorem create_request_parse_round_trip (st : Nat) (m : String) (p : JVal) :
    parseMessage (.ok (.obj (createRequest st m p).2.2))
      = some (.request (JVal.num ((createRequest st m p).2.1 : Int))
          (JVal.str m) p) := rfl

/-- C1: the nested session/update wire shape with sessionUpdate tool_call,
toolCallId t1 and a content list holding one entry with a tool sub-object
named read_file normalizes to a payload of kind tool_call with
tool_call_id t1 and tool_name read_file, via the fixed alias table. -/
theorem nested_tool_call_normalization :
    normalizeNotification
      [("update", JVal.obj
        [("sessionUpdate", JVal.str "tool_call"),
         ("toolCallId", JVal.str "t1"),
         ("content", JVal.arr
           [JVal.obj [("tool", JVal.obj [("name", JVal.str "read_file")])]])])]
    = some { kind := JVal.str "tool_call",
             content := JVal.null,
             tool_name := JVal.str "read_file",
             tool_call_id := JVal.str "t1",
             arguments := JVal.null,
             status := JVal.null,
             result := JVal.null,
             error := JVal.null } := rfl

/-- C3 (amended): parse_message never raises on malformed JSON (which yields
PARSE_ERROR with a description) nor on any input decoding to a JSON object;
an object whose jsonrpc field is not the string 2.0 yields INVALID, and
otherwise the presence of the id, error, result and method keys classifies
the message as stated, error before result before method, with anything else
INVALID. (Inputs decoding to a non-object JSON value raise AttributeError,
see the counterexample theorem.) -/
theorem parse_message_total_classification :
    (∀ e, parseMessage (.error e)
        = some (.parseError ("JSON parse error: " ++ e))) ∧
    (∀ d, jvalIsStr (dictGetD d "jsonrpc" JVal.null) "2.0" = false →
        parseMessage (.ok (.obj d)) = some .invalid) ∧
    (∀ d, (parseMessage (.ok (.obj d))).isSome = true) ∧
    (∀ d i e, dictGet? d "jsonrpc" = some (JVal.str "2.0") →
        dictGet? d "id" = some i → dictGet? d "error" = some e →
        parseMessage (.ok (.obj d)) = some (.error i e)) ∧
    (∀ d i r, dictGet? d "jsonrpc" = some (JVal.str "2.0") →
        dictGet? d "id" = some i → dictGet? d "error" = none →
        dictGet? d "result" = some r →
        parseMessage (.ok (.obj d)) = some (.response i r)) ∧
    (∀ d i m, dictGet? d "jsonrpc" = some (JVal.str "2.0") →
        dictGet? d "id" = some i → dictGet? d "error" = none →
        dictGet? d "result" = none → dictGet? d "method" = some m →
        parseMessage (.ok (.obj d))
          = some (.request i m (dictGetD d "params" (JVal.obj [])))) ∧
    (∀ d m, dictGet? d "jsonrpc" = some (JVal.str "2.0") →
        dictGet? d "id" = none → dictGet? d "method" = some m →
        parseMessage (.ok (.obj d))
          = some (.notification m (dictGetD d "params" (JVal.obj [])))) ∧
    (∀ d, dictGet? d "jsonrpc" = some (JVal.str "2.0") →
        dictGet? d "method" = none →
        (dictGet? d "id" = none ∨
          (dictGet? d "error" = none ∧ dictGet? d "result" = none)) →
        parseMessage (.ok (.obj d)) = some .invalid) := by
  refine ⟨fun e => rfl, ?_, ?_, ?_, ?_, ?_, ?_, ?_⟩
  · intro d h
    simp [parseMessage, h]
  · intro d
    simp only [parseMessage]
    split <;> simp
  · intro d i e hj hi he
    simp [parseMessage, dictGetD, hj, jvalIsStr, classifyFields, hi, he]
  · intro d i r hj hi he hr
    simp [parseMessage, dictGetD, hj, jvalIsStr, classifyFields, hi, he, hr]
  · intro d i m hj hi he hr hm
    simp [parseMessage, dictGetD, hj, jvalIsStr, classifyFields, hi, he, hr, hm]
  · intro d m hj hi hm
    simp [parseMessage, dictGetD, hj, jvalIsStr, classifyFields, hi, hm]
  · intro d hj hm hrest
    rcases hrest with hi | ⟨he, hr⟩
    · simp [parseMessage, dictGetD, hj, jvalIsStr, classifyFields, hi, hm]
    · rcases hcase : dictGet? d "id" with _ | i <;>
        simp [parseMessage, dictGetD, hj, jvalIsStr, classifyFields,
          hcase, he, hr, hm]

/-- C3 counterexample: the string 42 is well-formed JSON, so the claim as
stated requires INVALID, but the decoded value is not a dict and the
attribute access message.get raises AttributeError (modelled as none). -/
theorem parse_message_raises_on_non_object :
    parseMessage (.ok (JVal.num 42)) = none := rfl

/-- Witness for the amended C3 theorem at a concrete error message. -/
theorem parse_message_total_classification_witness :
    parseMessage (.ok (.obj [("jsonrpc", JVal.str "2.0"), ("id", JVal.num 1),
      ("error", JVal.obj [("code", JVal.num (-32601))])]))
      = some (.error (JVal.num 1) (JVal.obj [("code", JVal.num (-32601))])) :=
  parse_message_total_classification.2.2.2.1 _ _ _ rfl rfl rfl

/-- C10: classification precedence — with jsonrpc 2.0 and an id present,
an error field wins over a result field (ERROR), and a result field wins
over a method field when no error is present (RESPONSE). -/
theorem classification_precedence :
    (∀ d i e r, dictGet? d "jsonrpc" = some (JVal.str "2.0") →
      dictGet? d "id" = some i → dictGet? d "error" = some e →
      dictGet? d "result" = some r →
      parseMessage (.ok (.obj d)) = some (.error i e)) ∧
    (∀ d i r m, dictGet? d "jsonrpc" = some (JVal.str "2.0") →
      dictGet? d "id" = some i → dictGet? d "result" = some r →
      dictGet? d "method" = some m → dictGet? d "error" = none →
      parseMessage (.ok (.obj d)) = some (.response i r)) := by
  constructor
  · intro d i e r hj hi he _
    simp [parseMessage, dictGetD, hj, jvalIsStr, classifyFields, hi, he]
  · intro d i r m hj hi hr hm he
    simp [parseMessage, dictGetD, hj, jvalIsStr, classifyFields, hi, he, hr]

/-- Witness for C10 at a concrete message carrying id, error, result and
method together. -/
theorem classification_precedence_witness :
    parseMessage (.ok (.obj [("jsonrpc", JVal.str "2.0"), ("id", JVal.num 7),
      ("error", JVal.str "e"), ("result", JVal.str "r"),
      ("method", JVal.str "m")]))
      = some (.error (JVal.num 7) (JVal.str "e")) :=
  classification_precedence.1 _ _ _ _ rfl rfl rfl rfl

/-- Branch equation of process_update for the tool_call kind. -/
theorem process_update_tool_call_eq (s : ACPSession) (p : UpdatePayload)
    (h : p.kind = "tool_call") :
    s.process_update p
      = { s with tool_calls := s.tool_calls ++ [ACPSession.newToolCallOf p] } := by
  unfold ACPSession.process_update
  rw [h]
  rw [if_neg (by decide), if_neg (by decide), if_pos rfl]

/-- Branch equation of process_update for the tool_call_update kind. -/
theorem process_update_tool_call_update_eq (s : ACPSession) (p : UpdatePayload)
    (h : p.kind = "tool_call_update") :
    s.process_update p
      = if optStrTruthy p.tool_call_id then
          { s with tool_calls := (updateFirstToolCall (p.tool_call_id.getD "")
              (applyToolCallUpdate p) s.tool_calls) }
        else s := by
  unfold ACPSession.process_update
  rw [h]
  rw [if_neg (by decide), if_neg (by decide), if_neg (by decide), if_pos rfl]

/-- process_update never touches the tool_calls list for the chunk kinds and
for unrecognized kinds. -/
theorem process_update_other_tool_calls (s : ACPSession) (p : UpdatePayload)
    (h1 : p.kind ≠ "tool_call") (h2 : p.kind ≠ "tool_call_update") :
    (s.process_update p).tool_calls = s.tool_calls := by
  unfold ACPSession.process_update
  split_ifs <;> simp_all

/-- C2: tool-call record lifecycle. A record is created only by a tool_call
update (every other kind preserves the list of record ids); an existing
record is mutated only by a tool_call_update whose id matches it, via the
partial update applyToolCallUpdate; a tool_call_update whose id matches no
existing record changes nothing and creates no record; and the concrete
scenario: a tool_call for t1 followed by a tool_call_update for t1 carrying
only the status completed yields exactly one record with status completed
and the prior arguments and result intact. -/
theorem tool_call_record_lifecycle (s : ACPSession) (p : UpdatePayload) :
    (p.kind ≠ "tool_call" → p.kind ≠ "tool_call_update" →
      (s.process_update p).tool_calls = s.tool_calls) ∧
    (p.kind ≠ "tool_call" →
      (s.process_update p).tool_calls.map ToolCall.tool_call_id
        = s.tool_calls.map ToolCall.tool_call_id) ∧
    (p.kind = "tool_call_update" →
      ∀ tc2 ∈ (s.process_update p).tool_calls,
        tc2 ∈ s.tool_calls ∨
        ∃ tc, tc ∈ s.tool_calls ∧ p.tool_call_id = some tc.tool_call_id ∧
          tc2 = applyToolCallUpdate p tc) ∧
    (p.kind = "tool_call_update" →
      (∀ tc ∈ s.tool_calls, p.tool_call_id ≠ some tc.tool_call_id) →
      s.process_update p = s) ∧
    ((({ session_id := "sess" } : ACPSession).process_update
        { kind := "tool_call", tool_call_id := some "t1",
          tool_name := some "read_file",
          arguments := some [("path", JVal.str "/tmp/x")] }).process_update
        { kind := "tool_call_update", tool_call_id := some "t1",
          status := some "completed" }
      = { session_id := "sess",
          tool_calls := ([{ tool_call_id := "t1",
                            tool_name := "read_file",
                            arguments := [("path", JVal.str "/tmp/x")],
                            status := "completed",
                            result := none,
                            error := none }]) }) := by
  refine ⟨?_, ?_, ?_, ?_, rfl⟩
  · exact process_update_other_tool_calls s p
  · intro h1
    by_cases h2 : p.kind = "tool_call_update"
    · rw [process_update_tool_call_update_eq s p h2]
      split_ifs
      · exact updateFirstToolCall_map_id _ _ _
          (fun tc => (applyToolCallUpdate_preserves p tc).1)
      · rfl
    · rw [process_update_other_tool_calls s p h1 h2]
  · intro h2 tc2 hmem
    rw [process_update_tool_call_update_eq s p h2] at hmem
    by_cases ht : optStrTruthy p.tool_call_id = true
    · rw [if_pos ht] at hmem
      rcases hid : p.tool_call_id with _ | tid
      · rw [hid] at ht; simp [optStrTruthy] at ht
      · rw [hid] at hmem
        rcases updateFirstToolCall_mem _ _ _ tc2 hmem with h | ⟨tc, htc, hidm, heq⟩
        · exact Or.inl h
        · simp only [Option.getD_some] at hidm
          exact Or.inr ⟨tc, htc, by rw [hidm], heq⟩
    · rw [if_neg ht] at hmem
      exact Or.inl hmem
  · intro h2 hnone
    rw [process_update_tool_call_update_eq s p h2]
    by_cases ht : optStrTruthy p.tool_call_id = true
    · rw [if_pos ht]
      rcases hid : p.tool_call_id with _ | tid
      · rw [hid] at ht; simp [optStrTruthy] at ht
      · rw [updateFirstToolCall_no_match _ _ _ (fun tc htc heq => by
          exact hnone tc htc (by rw [hid, heq]; rfl))]
    · rw [if_neg ht]

/-- Witness for C2: a tool_call_update whose id matches no record leaves the
session unchanged. -/
theorem tool_call_record_lifecycle_witness :
    ({ session_id := "w", tool_calls := ([{ tool_call_id := "t1",
                                            tool_name := "n",
                                            arguments := [] }]) }
        : ACPSession).process_update
      { kind := "tool_call_update", tool_call_id := some "t2",
        status := some "failed" }
    = { session_id := "w", tool_calls := ([{ tool_call_id := "t1",
                                             tool_name := "n",
                                             arguments := [] }]) } :=
  (tool_call_record_lifecycle _ _).2.2.2.1 rfl (by decide)

/-- C9: a tool_call payload is never dropped — process_update always appends
a record, substituting the empty string for a missing id or name and the
empty dict for missing arguments, with status pending and no result or
error. -/
theorem tool_call_missing_field_defaults (s : ACPSession) (p : UpdatePayload)
    (hkind : p.kind = "tool_call") :
    s.process_update p
      = { s with tool_calls := s.tool_calls ++ [ACPSession.newToolCallOf p] } ∧
    (p.tool_call_id = none → (ACPSession.newToolCallOf p).tool_call_id = "") ∧
    (p.tool_name = none → (ACPSession.newToolCallOf p).tool_name = "") ∧
    (p.arguments = none → (ACPSession.newToolCallOf p).arguments = []) ∧
    (ACPSession.newToolCallOf p).status = "pending" ∧
    (ACPSession.newToolCallOf p).result = none ∧
    (ACPSession.newToolCallOf p).error = none := by
  refine ⟨process_update_tool_call_eq s p hkind, ?_, ?_, ?_, rfl, rfl, rfl⟩
  · intro h; simp [ACPSession.newToolCallOf, pyOrEmptyStr, h]
  · intro h; simp [ACPSession.newToolCallOf, pyOrEmptyStr, h]
  · intro h; simp [ACPSession.newToolCallOf, pyOrEmptyDict, h]

/-- Witness for C9: a tool_call with no id, name or arguments still yields a
record whose id and name are empty. -/
theorem tool_call_missing_field_defaults_witness :
    ({ session_id := "w" } : ACPSession).process_update { kind := "tool_call" }
      = { session_id := "w", tool_calls := ([{ tool_call_id := "",
                                               tool_name := "",
                                               arguments := [] }]) } := by
  rw [(tool_call_missing_field_defaults { session_id := "w" }
    { kind := "tool_call" } rfl).1]
  rfl

/-- C8: partial-update field semantics of a matching tool_call_update. The
first matching record is replaced by applyToolCallUpdate of itself (others
untouched); a status or error that is present but equal to the empty string
is treated like an absent field and leaves the prior value, while a result
that is not None always overwrites, including falsy values such as 0, False
or the empty string. -/
theorem tool_call_update_field_semantics (s : ACPSession) (p : UpdatePayload)
    (pre post : List ToolCall) (tc : ToolCall)
    (hsplit : s.tool_calls = pre ++ tc :: post)
    (hpre : ∀ tc2 ∈ pre, tc2.tool_call_id ≠ tc.tool_call_id)
    (hkind : p.kind = "tool_call_update")
    (hid : p.tool_call_id = some tc.tool_call_id)
    (hne : tc.tool_call_id ≠ "") :
    (s.process_update p).tool_calls = pre ++ applyToolCallUpdate p tc :: post ∧
    (p.status = some "" → (applyToolCallUpdate p tc).status = tc.status) ∧
    (p.error = some "" → (applyToolCallUpdate p tc).error = tc.error) ∧
    (∀ v, p.result = some v → (applyToolCallUpdate p tc).result = some v) := by
  refine ⟨?_, ?_, ?_, ?_⟩
  · rw [process_update_tool_call_update_eq s p hkind]
    have ht : optStrTruthy p.tool_call_id = true := by
      rw [hid]; simpa [optStrTruthy] using hne
    rw [if_pos ht]
    show updateFirstToolCall (p.tool_call_id.getD "") (applyToolCallUpdate p)
        s.tool_calls = pre ++ applyToolCallUpdate p tc :: post
    rw [hid, Option.getD_some, hsplit]
    exact updateFirstToolCall_split _ _ pre post tc hpre rfl
  · intro hst
    unfold applyToolCallUpdate
    rw [hst]
    cases p.result <;> cases p.error <;> simp <;> split_ifs <;> rfl
  · intro he
    unfold applyToolCallUpdate
    rw [he]
    cases p.status <;> cases p.result <;> simp <;> split_ifs <;> rfl
  · intro v hr
    unfold applyToolCallUpdate
    rw [hr]
    cases p.status <;> cases p.error <;> simp <;> split_ifs <;> rfl

/-- Witness for C8: an update carrying an empty status, an empty error and
the falsy result 0 leaves status and error intact but overwrites the prior
result with 0. -/
theorem tool_call_update_field_semantics_witness :
    (({ session_id := "w",
        tool_calls := ([{ tool_call_id := "t1",
                          tool_name := "n",
                          arguments := [],
                          status := "running",
                          result := some (JVal.str "old"),
                          error := none }]) } : ACPSession).process_update
      { kind := "tool_call_update", tool_call_id := some "t1",
        status := some "", result := some (JVal.num 0),
        error := some "" }).tool_calls
    = [{ tool_call_id := "t1", tool_name := "n", arguments := [],
         status := "running", result := some (JVal.num 0),
         error := none }] := by
  rw [(tool_call_update_field_semantics _ _ [] [] _ rfl (by simp) rfl rfl
    (by decide)).1]
  rfl

/-- C4: when the session/prompt response carries stopReason error, the
execute path returns a failure ToolResponse whose error is the message of
the agent error object and whose output is the session output accumulated
from the notifications processed before the response. -/
theorem execute_prompt_error_result (s : ACPSession) (response errObj : Dict)
    (m : JVal)
    (hstop : dictGet? response "stopReason" = some (JVal.str "error"))
    (herr : dictGet? response "error" = some (JVal.obj errObj))
    (hmsg : dictGet? errObj "message" = some m) :
    executePromptResponse (some s) response
      = some { success := false, output := s.output, error := some m } := by
  simp [executePromptResponse, dictGetD, hstop, herr, hmsg, jvalIsStr]

/-- Witness for C4: the response with error message disk full after the two
chunks scanning and found-3-files yields the failure result of the claim. -/
theorem execute_prompt_error_result_witness :
    executePromptResponse
      (some (List.foldl ACPSession.process_update
        (ACPSession.reset { session_id := "s1", output := "stale" })
        [{ kind := "agent_message_chunk", content := some "scanning... " },
         { kind := "agent_message_chunk", content := some "found 3 files" }]))
      [("stopReason", JVal.str "error"),
       ("error", JVal.obj [("message", JVal.str "disk full")])]
    = some { success := false,
             output := "scanning... found 3 files",
             error := some (JVal.str "disk full") } := by
  have h := execute_prompt_error_result
    (List.foldl ACPSession.process_update
      (ACPSession.reset { session_id := "s1", output := "stale" })
      [{ kind := "agent_message_chunk", content := some "scanning... " },
       { kind := "agent_message_chunk", content := some "found 3 files" }])
    [("stopReason", JVal.str "error"),
     ("error", JVal.obj [("message", JVal.str "disk full")])]
    [("message", JVal.str "disk full")]
    (JVal.str "disk full") rfl rfl rfl
  rw [h]
  rfl

/-- C5 counterexample: when the transport start step itself fails, the code
re-raises the exception without calling stop on the transport (the start
call sits before the try block of the handshake), so the claim that every
failing step stops the transport is false at this input. -/
theorem initialize_start_failure_no_stop :
    initializeRun { startExn := some "Failed to start agent process",
                    initStep := .ok [], sessionStep := .ok [] }
    = { stopped := false, initialized := false,
        outcome := .error "Failed to start agent process" } := rfl

/-- C5 (amended): when the transport start succeeds, every failure of the
initialize or session/new request (exception, timeout, missing
protocolVersion, falsy sessionId) stops the transport, re-raises the error
and leaves the adapter uninitialized; a transport start failure re-raises
and leaves the adapter uninitialized but does not stop the transport; and
the initialized flag is set exactly when the whole handshake succeeds (no
half-initialized state). -/
theorem initialize_failure_cleanup (env : InitEnv) :
    (env.startExn = none → ∀ e, (initializeRun env).outcome = .error e →
      (initializeRun env).stopped = true ∧
      (initializeRun env).initialized = false) ∧
    (∀ e, env.startExn = some e →
      initializeRun env
        = { stopped := false, initialized := false, outcome := .error e }) ∧
    ((initializeRun env).initialized = true ↔
      (initializeRun env).outcome = .ok ()) := by
  obtain ⟨se, is, ss⟩ := env
  cases se with
  | some e => simp [initializeRun]
  | none =>
      cases is with
      | timeout => simp [initializeRun]
      | exn e => simp [initializeRun]
      | ok ir =>
          simp only [initializeRun]
          split_ifs with h1
          · cases ss with
            | timeout => simp
            | exn e => simp
            | ok sr =>
                by_cases h2 : (dictGetD sr "sessionId" JVal.null).truthy = true <;>
                  simp [h2]
          · simp

/-- Witness for the amended C5 theorem: an exception in the initialize
request stops the transport and leaves the adapter uninitialized. -/
theorem initialize_failure_cleanup_witness :
    (initializeRun { startExn := none, initStep := .exn "boom",
                     sessionStep := .ok [] }).stopped = true ∧
    (initializeRun { startExn := none, initStep := .exn "boom",
                     sessionStep := .ok [] }).initialized = false :=
  (initialize_failure_cleanup _).1 rfl "boom" rfl
